import Mathlib

/-!
Verification of the DB2 static-credential rotation plugin
(`db2_client.go`, `plugin.go`) against its natural-language specification.

The Go code is shallowly embedded: machine state (the `db2DB` struct) becomes
an explicit state record, the SQL driver and the configuration decoder become
oracle parameters, and every operation is a pure Lean function returning the
new state together with the list of SQL statements issued to the driver and
an `Except`-typed result mirroring the Go error value.
-/

namespace VaultDB2

/-- Config mirrors the Go struct `config` of db2_client.go: the three string
fields and the two pool-size limits.  `MaxConnectionLifetimeRaw` is decoded by
the Go code but never read afterwards, so it is omitted from the embedding. -/
structure Config where
  connectionURL : String
  username : String
  password : String
  maxOpenConnections : Int
  maxIdleConnections : Int
  deriving DecidableEq, Repr

/-- DBState is the mutable part of the Go struct `db2DB`: the stored
configuration `d.config` and the connection-handle slot `d.db` (`none` models
the Go `nil`; a handle is abstracted to a numeric identifier). -/
structure DBState where
  config : Config
  db : Option Nat
  deriving DecidableEq, Repr

/-- strMatch pat l decides whether `pat` is an initial segment of `l`
(character-wise); it is the primitive used to model Go substring search. -/
def strMatch : List Char → List Char → Bool
  | [], _ => true
  | _ :: _, [] => false
  | p :: ps, c :: cs => (p == c) && strMatch ps cs

/-- containsSub pat l decides whether `pat` occurs as a contiguous substring
of `l`, scanning left to right; this models Go `strings.Contains`. -/
def containsSub (pat : List Char) : List Char → Bool
  | [] => strMatch pat []
  | c :: t => strMatch pat (c :: t) || containsSub pat (t)

/-- idxOf pat l is Go `strings.Index(l, pat)`: the first position at which
`pat` occurs as a contiguous substring of `l` (`none` for Go's -1); an empty
`pat` is found at position 0. -/
def idxOf (pat : List Char) : List Char → Option Nat
  | [] => if strMatch pat [] then some 0 else none
  | c :: t => if strMatch pat (c :: t) then some 0 else (idxOf pat (t)).map (· + 1)

/-- endsWith sfx l is Go `strings.HasSuffix(l, sfx)`. -/
def endsWith (sfx l : List Char) : Bool :=
  strMatch sfx.reverse l.reverse

/-- splitOnStar is Go `strings.Split(pattern, "*")`: the subslices between
consecutive `*` separators (one more part than there are stars). -/
def splitOnStar : List Char → List (List Char)
  | [] => [[]]
  | c :: t =>
    if c = '*' then [] :: splitOnStar t
    else
      match splitOnStar t with
      | [] => [[c]]
      | p :: ps => (c :: p) :: ps

/-- globLoop is the leading-parts loop of go-glob's `Glob`: each non-final
part of the pattern must occur in the remaining subject (for the first part,
at position 0 unless the pattern starts with `*`), and the subject is trimmed
past each occurrence; the remaining subject is returned for the final suffix
check, `none` meaning the match already failed. -/
def globLoop (leadingGlob : Bool) : Bool → List Char → List (List Char) → Option (List Char)
  | _, subj, [] => some subj
  | first, subj, part :: rest =>
    match idxOf part subj with
    | none => none
    | some idx =>
      if first && !leadingGlob && idx != 0 then none
      else globLoop leadingGlob false (subj.drop (idx + part.length)) rest

/-- globMatch pattern subj transcribes `Glob(pattern, subj)` of
github.com/ryanuber/go-glob: an empty pattern matches only the empty
subject; the pattern `*` matches everything; a star-free pattern must equal
the subject; otherwise the pattern's non-final parts are located in order in
the subject and the final part must be a suffix (or the pattern ends in
`*`). -/
def globMatch (pattern subj : List Char) : Bool :=
  if pattern = [] then subj == pattern
  else if pattern = ['*'] then true
  else
    let parts := splitOnStar pattern
    if parts.length = 1 then subj == pattern
    else
      let leadingGlob := pattern.head? == some '*'
      let trailingGlob := pattern.getLast? == some '*'
      match globLoop leadingGlob true subj (parts.take (parts.length - 1)) with
      | none => false
      | some subjRem => trailingGlob || endsWith (parts.getLastD []) subjRem

/-- containsCredentials mirrors `containsCredentials` of db2_client.go:
`strutil.StrListContainsGlob([]string{connStr}, "*UID=*")`.
`StrListContainsGlob(haystack, needle)` iterates the haystack calling
`glob.Glob(item, needle)`, and go-glob's signature is `Glob(pattern, subj)`:
so each haystack item — here the connection string — is used as the glob
PATTERN and `"*UID=*"` (resp. `"*PWD=*"`) as the subject.  With the
one-element haystack this is `globMatch connStr "*UID=*" || globMatch
connStr "*PWD=*"`.  Note this is not a substring test: a star-free
connection string is compared for equality with the six-character subject,
contradicting the function's own doc comment and `TestContainsCredentials`. -/
def containsCredentials (connStr : String) : Bool :=
  globMatch connStr.data "*UID=*".data || globMatch connStr.data "*PWD=*".data

/-- buildConnectionString mirrors `buildConnectionString` of db2_client.go:
start from ConnectionURL; when Username and Password are both non-empty and
the URL does not already contain credentials, append
`;UID=<user>;PWD=<pass>` (the `fmt.Sprintf("%s;UID=%s;PWD=%s", ...)`). -/
def buildConnectionString (c : Config) : String :=
  let connStr := c.connectionURL
  if c.username != "" && c.password != "" then
    if !containsCredentials connStr then
      connStr ++ ";UID=" ++ c.username ++ ";PWD=" ++ c.password
    else connStr
  else connStr

/-- replaceScan pat rep l k is the scanner underlying Go
`strings.ReplaceAll(l, pat, rep)` (as called by `dbutil.QueryHelper`):
while `k > 0` it skips characters already consumed by a previous match;
at `k = 0` it tests for a match of `pat`, emitting `rep` and skipping the
matched characters on success, and otherwise copies one character.  The
replacement text is never rescanned, matching Go's non-overlapping,
left-to-right semantics. -/
def replaceScan (pat rep : List Char) : List Char → Nat → List Char
  | [], _ => []
  | _ :: t, k + 1 => replaceScan pat rep t k
  | c :: t, 0 =>
    if strMatch pat (c :: t) then rep ++ replaceScan pat rep t (pat.length - 1)
    else c :: replaceScan pat rep t 0

/-- replaceAll pat rep l replaces every non-overlapping occurrence of `pat`
in `l` by `rep`, left to right: Go `strings.ReplaceAll`. -/
def replaceAll (pat rep l : List Char) : List Char :=
  replaceScan pat rep l 0

/-- queryHelper models `dbutil.QueryHelper(stmt, map{"username": u,
"password": p})` from the Vault SDK: it applies
`strings.ReplaceAll(tpl, "\x7b\x7bkey\x7d\x7d", value)` for the two map
entries.  Go iterates map entries in unspecified order; this embedding fixes
the order password first, then username.  (Both orders agree whenever the
substituted values contain no placeholder token.) -/
def queryHelper (username password : String) (stmt : String) : String :=
  ⟨replaceAll "\x7b\x7busername\x7d\x7d".data username.data
      (replaceAll "\x7b\x7bpassword\x7d\x7d".data password.data stmt.data)⟩

/-- defaultChangePasswordStatement is the Go constant of the same name. -/
def defaultChangePasswordStatement : String :=
  "ALTER USER \"\x7b\x7busername\x7d\x7d\" IDENTIFIED BY \"\x7b\x7bpassword\x7d\x7d\""

/-- mapEmpty is the empty Go map, viewed as a lookup function. -/
def mapEmpty : String → Option String := fun _ => none

/-- mapInsert m k v is Go map assignment `m[k] = v`: the new binding shadows
any earlier binding of the same key. -/
def mapInsert (m : String → Option String) (k v : String) : String → Option String :=
  fun x => if x = k then some v else m x

/-- secretValuesToMask mirrors `secretValuesToMask` of plugin.go: the Go map
literal `{d.config.Password: "[password]", d.config.Username: "[username]"}`,
whose entries are evaluated in source order, so the Username entry is written
last and shadows the Password entry when the two strings coincide. -/
def secretValuesToMask (c : Config) : String → Option String :=
  mapInsert (mapInsert mapEmpty c.password "[password]") c.username "[username]"

/-- initDB models `Initialize` of db2_client.go.  Oracles:
`dec` is the outcome of `mapstructure.WeakDecode(req.Config, &cfg)`;
`openRes dsn` is the outcome of `sql.Open("go_ibm_db", dsn)`;
`ping h` is the outcome of `db.PingContext` on handle `h` (`none` = success);
`verify` is `req.VerifyConnection`.  The result is the new state paired with
the Go return value (`Except` error mirroring the `fmt.Errorf` texts).
The source order is kept: close any existing handle, decode, require
`connection_url`, store the config, build the DSN and open, then verify. -/
def initDB (dec : Except String Config) (openRes : String → Except String Nat)
    (ping : Nat → Option String) (verify : Bool) (st : DBState) :
    DBState × Except String Unit :=
  let st0 : DBState := { st with db := none }
  match dec with
  | .error e => (st0, .error ("failed to decode configuration: " ++ e))
  | .ok cfg =>
    if cfg.connectionURL = "" then
      (st0, .error "connection_url is required")
    else
      let st1 : DBState := { st0 with config := cfg }
      match openRes (buildConnectionString cfg) with
      | .error e => (st1, .error ("failed to open DB2 connection: " ++ e))
      | .ok h =>
        let st2 : DBState := { st1 with db := some h }
        if verify then
          match ping h with
          | some e => ({ st2 with db := none },
              .error ("failed to verify DB2 connection: " ++ e))
          | none => (st2, .ok ())
        else (st2, .ok ())

/-- ChangePassword mirrors `dbplugin.ChangePassword`: the new password and the
rotation statement list `Statements.Commands`. -/
structure ChangePassword where
  newPassword : String
  commands : List String
  deriving DecidableEq, Repr

/-- UpdateUserRequest mirrors `dbplugin.UpdateUserRequest` restricted to the
fields the plugin reads: `Username` and the optional `Password` change. -/
structure UpdateUserRequest where
  username : String
  password : Option ChangePassword
  deriving DecidableEq, Repr

/-- execLoop models the statement loop of `UpdateUser`: for each statement in
order, substitute placeholders with `queryHelper` and execute via the driver
oracle `exec` (`none` = success, `some e` = driver error `e`).  It returns the
list of SQL texts actually passed to `ExecContext` (the failing one included)
together with the Go return value; the first failure aborts the loop with
`fmt.Errorf("failed to update password for user %s: %w", username, err)`. -/
def execLoop (exec : String → Option String) (username newPassword : String) :
    List String → List String × Except String Unit
  | [] => ([], .ok ())
  | stmt :: rest =>
    let query := queryHelper username newPassword stmt
    match exec query with
    | some e =>
      ([query], .error ("failed to update password for user " ++ username ++ ": " ++ e))
    | none =>
      let r := execLoop exec username newPassword rest
      (query :: r.1, r.2)

/-- updateUser models `UpdateUser` of db2_client.go on an instance whose
handle slot is non-nil iff `dbPresent`: connection check, the no-op return
when no password change is present, the two validation checks in source
order, default-statement fallback, then the execution loop.  The first
component is the list of SQL texts issued to the driver. -/
def updateUser (exec : String → Option String) (dbPresent : Bool)
    (req : UpdateUserRequest) : List String × Except String Unit :=
  if !dbPresent then ([], .error "DB2 connection not initialized")
  else
    match req.password with
    | none => ([], .ok ())
    | some pw =>
      let username := req.username
      let newPassword := pw.newPassword
      if username = "" then ([], .error "username is required")
      else if newPassword = "" then ([], .error "new password is required")
      else
        let statements :=
          if pw.commands.length = 0 then [defaultChangePasswordStatement]
          else pw.commands
        execLoop exec username newPassword statements

/-- execAllOk is a driver oracle on which every statement succeeds; it is used
to instantiate theorems at concrete inputs. -/
def execAllOk : String → Option String := fun _ => none

/-- execAllFail e is a driver oracle on which every statement fails with the
driver error `e`. -/
def execAllFail (e : String) : String → Option String := fun _ => some e

/-! Helper lemmas about the string scanner. -/

/-- strMatch_self x r states that a list is an initial segment of itself
followed by anything. -/
theorem strMatch_self (x : List Char) : ∀ r : List Char, strMatch x (x ++ r) = true := by
  induction x with
  | nil => intro r; rfl
  | cons c cs ih => intro r; simp [strMatch, ih r]

/-- containsSub_here: a match at the current position witnesses containment. -/
theorem containsSub_here (pat l : List Char) (h : strMatch pat l = true) :
    containsSub pat l = true := by
  cases l with
  | nil => simpa [containsSub] using h
  | cons c t => simp [containsSub, h]

/-- containsSub_extend: containment is preserved by prepending characters. -/
theorem containsSub_extend (pat : List Char) :
    ∀ a t : List Char, containsSub pat t = true → containsSub pat (a ++ t) = true := by
  intro a
  induction a with
  | nil => intro t h; simpa using h
  | cons c a' ih => intro t h; simp [containsSub, ih t h]

/-- replaceScan_skip: a skip budget equal to the length of a leading block
drops exactly that block and resumes scanning. -/
theorem replaceScan_skip (pat rep : List Char) :
    ∀ a rest : List Char, replaceScan pat rep (a ++ rest) a.length = replaceScan pat rep rest 0 := by
  intro a
  induction a with
  | nil => intro rest; rfl
  | cons c a' ih => intro rest; simp [replaceScan, ih rest]

/-- replaceScan_match: at a position where the pattern occurs, the scanner
emits the replacement and resumes after the matched block; the replacement
text itself is not rescanned. -/
theorem replaceScan_match (q : Char) (qs rep rest : List Char) :
    replaceScan (q :: qs) rep ((q :: qs) ++ rest) 0 = rep ++ replaceScan (q :: qs) rep rest 0 := by
  rw [List.cons_append]
  simp only [replaceScan, strMatch, beq_self_eq_true, Bool.true_and, strMatch_self,
    if_true, List.length_cons, Nat.add_sub_cancel]
  rw [replaceScan_skip]

/-- replaceScan_copy: characters of a leading block that never starts a match
of the pattern (its head character does not occur there) are copied verbatim. -/
theorem replaceScan_copy (q : Char) (qs rep : List Char) :
    ∀ a rest : List Char, (∀ c ∈ a, c ≠ q) →
      replaceScan (q :: qs) rep (a ++ rest) 0 = a ++ replaceScan (q :: qs) rep rest 0 := by
  intro a
  induction a with
  | nil => intro rest _; rfl
  | cons c a' ih =>
    intro rest h
    have hc : (q == c) = false := beq_eq_false_iff_ne.mpr (Ne.symm (h c (by simp)))
    simp [replaceScan, strMatch, hc, ih rest (fun x hx => h x (by simp [hx]))]

/-- replaceScan_clear: a list in which the pattern's head character does not
occur is returned unchanged. -/
theorem replaceScan_clear (q : Char) (qs rep : List Char) :
    ∀ l : List Char, (∀ c ∈ l, c ≠ q) → replaceScan (q :: qs) rep l 0 = l := by
  intro l
  induction l with
  | nil => intro _; rfl
  | cons c t ih =>
    intro h
    have hc : (q == c) = false := beq_eq_false_iff_ne.mpr (Ne.symm (h c (by simp)))
    simp [replaceScan, strMatch, hc, ih (fun x hx => h x (by simp [hx]))]

/-- replaceAll_userTemplate: substituting the username placeholder in the
template obtained after the password pass, at character-list level.  The
hypothesis excludes an opening brace from the substituted password, which is
what prevents a placeholder token inside the password from matching. -/
theorem replaceAll_userTemplate (ud pd : List Char) (hp : '{' ∉ pd) :
    replaceAll "\x7b\x7busername\x7d\x7d".data ud
        ("ALTER USER \"\x7b\x7busername\x7d\x7d\" IDENTIFIED BY \"".data ++ (pd ++ ['"'])) =
      "ALTER USER \"".data ++ (ud ++ ("\" IDENTIFIED BY \"".data ++ (pd ++ ['"']))) := by
  have hsplit : "ALTER USER \"\x7b\x7busername\x7d\x7d\" IDENTIFIED BY \"".data
      = "ALTER USER \"".data ++
          ("\x7b\x7busername\x7d\x7d".data ++ "\" IDENTIFIED BY \"".data) := rfl
  have hPU : "\x7b\x7busername\x7d\x7d".data = '{' :: "\x7busername\x7d\x7d".data := rfl
  rw [replaceAll, hsplit, hPU]
  rw [List.append_assoc, List.append_assoc]
  rw [replaceScan_copy _ _ _ _ _ (by decide)]
  rw [replaceScan_match]
  rw [replaceScan_clear _ _ _ _ ?_]
  intro c hc
  have hB0 : ∀ x ∈ "\" IDENTIFIED BY \"".data, x ≠ '{' := by decide
  have hQ0 : ∀ x ∈ ['"'], x ≠ '{' := by decide
  rcases List.mem_append.mp hc with hB | hc'
  · exact hB0 c hB
  · rcases List.mem_append.mp hc' with hcp | hq
    · exact fun hEq => hp (hEq ▸ hcp)
    · exact hQ0 c hq

/-- queryHelper_default: on the default rotation template, `queryHelper`
produces the literal ALTER USER statement, provided the substituted password
contains no opening brace (so no placeholder token inside it can match). -/
theorem queryHelper_default (u p : String) (hp : '{' ∉ p.data) :
    queryHelper u p defaultChangePasswordStatement =
      "ALTER USER \"" ++ u ++ "\" IDENTIFIED BY \"" ++ p ++ "\"" := by
  obtain ⟨ud⟩ := u
  obtain ⟨pd⟩ := p
  have h1 : replaceAll "\x7b\x7bpassword\x7d\x7d".data pd defaultChangePasswordStatement.data
      = "ALTER USER \"\x7b\x7busername\x7d\x7d\" IDENTIFIED BY \"".data ++ (pd ++ ['"']) := rfl
  show String.mk
      (replaceAll "\x7b\x7busername\x7d\x7d".data ud
        (replaceAll "\x7b\x7bpassword\x7d\x7d".data pd defaultChangePasswordStatement.data)) = _
  rw [h1, replaceAll_userTemplate ud pd hp]
  apply congrArg String.mk
  simp [List.append_assoc]

/-- updateUser_run: on an initialized instance, a validated request reaches
the execution loop on its (non-defaulted) statement list. -/
theorem updateUser_run (exec : String → Option String) (u p : String) (cmds : List String)
    (hu : u ≠ "") (hp : p ≠ "") (hc : cmds ≠ []) :
    updateUser exec true ⟨u, some ⟨p, cmds⟩⟩ = execLoop exec u p cmds := by
  simp [updateUser, hu, hp, List.length_eq_zero, hc]

/-- execLoop_ok: when the driver accepts every substituted statement, the loop
executes all of them, in order, and succeeds. -/
theorem execLoop_ok (exec : String → Option String) (u p : String) :
    ∀ cmds : List String, (∀ s ∈ cmds, exec (queryHelper u p s) = none) →
      execLoop exec u p cmds = (cmds.map (queryHelper u p), Except.ok ()) := by
  intro cmds
  induction cmds with
  | nil => intro _; rfl
  | cons s rest ih =>
    intro h
    have hs : exec (queryHelper u p s) = none := h s (by simp)
    simp [execLoop, hs, ih (fun x hx => h x (by simp [hx]))]

/-- execLoop_fail: the first statement the driver rejects stops the loop; the
statements executed are exactly the successful ones followed by the failing
one, and the returned error wraps the driver error and names the username. -/
theorem execLoop_fail (exec : String → Option String) (u p stmt e : String) :
    ∀ pre suf : List String, (∀ s ∈ pre, exec (queryHelper u p s) = none) →
      exec (queryHelper u p stmt) = some e →
      execLoop exec u p (pre ++ stmt :: suf) =
        ((pre ++ [stmt]).map (queryHelper u p),
          Except.error ("failed to update password for user " ++ u ++ ": " ++ e)) := by
  intro pre
  induction pre with
  | nil => intro suf _ he; simp [execLoop, he]
  | cons s pre' ih =>
    intro suf hpre he
    have hs : exec (queryHelper u p s) = none := hpre s (by simp)
    simp [execLoop, hs, ih suf (fun x hx => hpre x (by simp [hx])) he]

/-- username_in_msg: the execution-failure message contains the username as a
substring (it is the interpolated `%s`). -/
theorem username_in_msg (u e : String) :
    containsSub u.data ("failed to update password for user " ++ u ++ ": " ++ e).data = true := by
  have hdata : ("failed to update password for user " ++ u ++ ": " ++ e).data
      = "failed to update password for user ".data ++ (u.data ++ (": ".data ++ e.data)) := by
    simp [String.data_append, List.append_assoc]
  rw [hdata]
  exact containsSub_extend _ _ _ (containsSub_here _ _ (strMatch_self _ _))

/-! Claim theorems. -/

/-- Claim C1 is right on intent but the code is wrong (code bug): the URL
`DATABASE=mydb;HOSTNAME=localhost;PWD=pass` contains the substring `PWD=`,
so the claim (and the repo's own `TestContainsCredentials`, and the doc
comment on `containsCredentials`) demand that the built string be the URL
unchanged; but `containsCredentials` passes the URL as the glob pattern and
`*UID=*`/`*PWD=*` as the subject, reducing to an equality test for star-free
URLs, so it returns false even on the test file's marker-carrying inputs and
`buildConnectionString` appends the credentials a second time. -/
theorem claim_C1_bug :
    containsSub "PWD=".data "DATABASE=mydb;HOSTNAME=localhost;PWD=pass".data = true ∧
    containsCredentials "DATABASE=mydb;HOSTNAME=localhost;PWD=pass" = false ∧
    containsCredentials "DATABASE=mydb;HOSTNAME=localhost;UID=user;PWD=pass" = false ∧
    buildConnectionString
        ⟨"DATABASE=mydb;HOSTNAME=localhost;PWD=pass", "testuser", "testpass", 0, 0⟩ =
      "DATABASE=mydb;HOSTNAME=localhost;PWD=pass;UID=testuser;PWD=testpass" := by
  exact ⟨by decide, by decide, by decide, rfl⟩

/-- Claim C2: whenever Initialize returns an error — from decoding, the
missing connection_url check, opening, or the verification probe — the
instance's handle slot is nil when the call returns. -/
theorem claim_C2 (dec : Except String Config) (openRes : String → Except String Nat)
    (ping : Nat → Option String) (verify : Bool) (st : DBState) (e : String)
    (h : (initDB dec openRes ping verify st).2 = Except.error e) :
    (initDB dec openRes ping verify st).1.db = none := by
  cases dec with
  | error m => rfl
  | ok cfg =>
    by_cases hurl : cfg.connectionURL = ""
    · simp [initDB, hurl]
    · cases hop : openRes (buildConnectionString cfg) with
      | error m => simp [initDB, hurl, hop]
      | ok hdl =>
        cases verify with
        | false => exact absurd h (by simp [initDB, hurl, hop])
        | true =>
          cases hping : ping hdl with
          | none => exact absurd h (by simp [initDB, hurl, hop, hping])
          | some m => simp [initDB, hurl, hop, hping]

/-- Witness for C2 at a concrete decode failure over a previously connected
state. -/
theorem claim_C2_witness :
    (initDB (Except.error "bad") (fun _ => Except.ok 0) (fun _ => none) false
        ⟨⟨"DATABASE=testdb", "u", "p", 0, 0⟩, some 5⟩).1.db = none :=
  claim_C2 (Except.error "bad") (fun _ => Except.ok 0) (fun _ => none) false
    ⟨⟨"DATABASE=testdb", "u", "p", 0, 0⟩, some 5⟩ "failed to decode configuration: bad" rfl

/-- Claim C6: Initialize tears down an existing handle before decoding and
validating: on a decode failure or a missing connection_url, the call returns
the configuration error and the state keeps its old config with the handle
slot already nil — the previously held connection has been destroyed. -/
theorem claim_C6 (dec : Except String Config) (openRes : String → Except String Nat)
    (ping : Nat → Option String) (verify : Bool) (st : DBState) (hdl : Nat)
    (_hst : st.db = some hdl) :
    (∀ m, dec = Except.error m →
      initDB dec openRes ping verify st =
        ({ st with db := none }, Except.error ("failed to decode configuration: " ++ m))) ∧
    (∀ cfg, dec = Except.ok cfg → cfg.connectionURL = "" →
      initDB dec openRes ping verify st =
        ({ st with db := none }, Except.error "connection_url is required")) := by
  constructor
  · intro m hm; subst hm; rfl
  · intro cfg hcfg hurl; subst hcfg; simp [initDB, hurl]

/-- Witness for C6: a decode failure on an instance holding handle 3 leaves
the old config in place and the handle slot nil. -/
theorem claim_C6_witness :
    initDB (Except.error "boom") (fun _ => Except.ok 0) (fun _ => none) true
        ⟨⟨"OLD", "ou", "op", 0, 0⟩, some 3⟩ =
      (⟨⟨"OLD", "ou", "op", 0, 0⟩, none⟩,
        Except.error "failed to decode configuration: boom") := by
  have h := (claim_C6 (Except.error "boom") (fun _ => Except.ok 0) (fun _ => none) true
      ⟨⟨"OLD", "ou", "op", 0, 0⟩, some 3⟩ 3 rfl).1 "boom" rfl
  exact h

/-- Claim C8: on an initialized instance, a request whose password-change
field is absent returns success and issues zero SQL statements, whatever the
username (the empty string included). -/
theorem claim_C8 (exec : String → Option String) (u : String) :
    updateUser exec true ⟨u, none⟩ = ([], Except.ok ()) := rfl

/-- Claim C10: when Initialize fails at decoding or at the missing
connection_url check, the stored configuration — hence the masking map — is
unchanged; when it fails at the verification probe, the stored configuration
has already been replaced, so the masking map reflects the failed
configuration's credentials. -/
theorem claim_C10 (dec : Except String Config) (openRes : String → Except String Nat)
    (ping : Nat → Option String) (verify : Bool) (st : DBState) :
    (∀ m, dec = Except.error m →
      (initDB dec openRes ping verify st).1.config = st.config ∧
      secretValuesToMask (initDB dec openRes ping verify st).1.config =
        secretValuesToMask st.config) ∧
    (∀ cfg, dec = Except.ok cfg → cfg.connectionURL = "" →
      (initDB dec openRes ping verify st).1.config = st.config ∧
      secretValuesToMask (initDB dec openRes ping verify st).1.config =
        secretValuesToMask st.config) ∧
    (∀ cfg hdl e, dec = Except.ok cfg → cfg.connectionURL ≠ "" →
      openRes (buildConnectionString cfg) = Except.ok hdl → ping hdl = some e →
      (initDB dec openRes ping true st).2 =
        Except.error ("failed to verify DB2 connection: " ++ e) ∧
      (initDB dec openRes ping true st).1.config = cfg ∧
      secretValuesToMask (initDB dec openRes ping true st).1.config =
        secretValuesToMask cfg) := by
  refine ⟨?_, ?_, ?_⟩
  · intro m hm; subst hm; exact ⟨rfl, rfl⟩
  · intro cfg hcfg hurl; subst hcfg
    constructor <;> simp [initDB, hurl]
  · intro cfg hdl e hcfg hurl hop hping; subst hcfg
    refine ⟨?_, ?_, ?_⟩ <;> simp [initDB, hurl, hop, hping]

/-- Witness for C10: a concrete probe failure replaces the stored config (and
so the masking map) with the failed configuration's values. -/
theorem claim_C10_witness :
    (initDB (Except.ok ⟨"DSN", "u2", "p2", 0, 0⟩) (fun _ => Except.ok 9)
        (fun _ => some "timeout") true ⟨⟨"OLD", "ou", "op", 0, 0⟩, none⟩).2 =
      Except.error "failed to verify DB2 connection: timeout" ∧
    (initDB (Except.ok ⟨"DSN", "u2", "p2", 0, 0⟩) (fun _ => Except.ok 9)
        (fun _ => some "timeout") true ⟨⟨"OLD", "ou", "op", 0, 0⟩, none⟩).1.config =
      ⟨"DSN", "u2", "p2", 0, 0⟩ := by
  have h := (claim_C10 (Except.ok ⟨"DSN", "u2", "p2", 0, 0⟩) (fun _ => Except.ok 9)
      (fun _ => some "timeout") true ⟨⟨"OLD", "ou", "op", 0, 0⟩, none⟩).2.2
    ⟨"DSN", "u2", "p2", 0, 0⟩ 9 "timeout" rfl (by decide) rfl rfl
  exact ⟨h.1, h.2.1⟩

/-- Counterexample to claim C3 as stated: with both the username and the new
password empty, the claim's second conditional demands the error
"new password is required", but the code checks the username first and the
call returns "username is required" (and a call returns only one error). -/
theorem claim_C3_counterexample :
    updateUser execAllOk true ⟨"", some ⟨"", []⟩⟩ = ([], Except.error "username is required") ∧
    "username is required" ≠ "new password is required" :=
  ⟨rfl, by decide⟩

/-- Claim C3 amended: on an initialized instance with a present password
change, an empty username yields the error "username is required", and an
empty new password with a non-empty username yields "new password is
required"; in both cases zero SQL statements are executed. -/
theorem claim_C3_amended (exec : String → Option String) (req : UpdateUserRequest)
    (pw : ChangePassword) (hpw : req.password = some pw) :
    (req.username = "" →
      updateUser exec true req = ([], Except.error "username is required")) ∧
    (req.username ≠ "" → pw.newPassword = "" →
      updateUser exec true req = ([], Except.error "new password is required")) := by
  constructor
  · intro hu
    simp [updateUser, hpw, hu]
  · intro hu hnp
    simp [updateUser, hpw, hu, hnp]

/-- Witness for the amended C3: empty new password with non-empty username is
rejected with zero statements executed. -/
theorem claim_C3_witness :
    updateUser execAllOk true ⟨"bob", some ⟨"", []⟩⟩ =
      ([], Except.error "new password is required") :=
  (claim_C3_amended execAllOk ⟨"bob", some ⟨"", []⟩⟩ ⟨"", []⟩ rfl).2 (by decide) rfl

/-- Claim C4: a non-empty statement list is executed in order with the
placeholders substituted; if every statement succeeds all were executed, and
the first driver failure skips the rest and returns an error wrapping the
driver error whose text is exactly
`failed to update password for user <username>: <driver error>` — it
interpolates the username (shown as a substring) and the driver error, and
nothing else, in particular not the new password. -/
theorem claim_C4 (exec : String → Option String) (u p : String) (cmds : List String)
    (hu : u ≠ "") (hp : p ≠ "") (hc : cmds ≠ []) :
    ((∀ s ∈ cmds, exec (queryHelper u p s) = none) →
      updateUser exec true ⟨u, some ⟨p, cmds⟩⟩ =
        (cmds.map (queryHelper u p), Except.ok ())) ∧
    (∀ pre stmt suf e, cmds = pre ++ stmt :: suf →
      (∀ s ∈ pre, exec (queryHelper u p s) = none) →
      exec (queryHelper u p stmt) = some e →
      updateUser exec true ⟨u, some ⟨p, cmds⟩⟩ =
        ((pre ++ [stmt]).map (queryHelper u p),
          Except.error ("failed to update password for user " ++ u ++ ": " ++ e)) ∧
      containsSub u.data
        ("failed to update password for user " ++ u ++ ": " ++ e).data = true) := by
  constructor
  · intro hall
    rw [updateUser_run exec u p cmds hu hp hc]
    exact execLoop_ok exec u p cmds hall
  · intro pre stmt suf e hsplit hpre he
    refine ⟨?_, username_in_msg u e⟩
    rw [updateUser_run exec u p cmds hu hp hc, hsplit]
    exact execLoop_fail exec u p stmt e pre suf hpre he

/-- Witness for C4: a driver that rejects everything stops after the first
statement with the wrapping error, whose text contains the username. -/
theorem claim_C4_witness :
    updateUser (execAllFail "boom") true ⟨"alice", some ⟨"pw", ["SET X"]⟩⟩ =
      ([queryHelper "alice" "pw" "SET X"],
        Except.error "failed to update password for user alice: boom") ∧
    containsSub "alice".data "failed to update password for user alice: boom".data = true := by
  have h := (claim_C4 (execAllFail "boom") "alice" "pw" ["SET X"] (by decide) (by decide)
      (by decide)).2 [] "SET X" [] "boom" rfl (by simp) rfl
  exact ⟨by simpa using h.1, by simpa using h.2⟩

/-- updateUser_default_stmt: with an empty statement list, exactly one SQL
text is issued to the driver: the substituted default template. -/
theorem updateUser_default_stmt (exec : String → Option String) (u p : String)
    (hu : u ≠ "") (hp : p ≠ "") :
    (updateUser exec true ⟨u, some ⟨p, []⟩⟩).1 =
      [queryHelper u p defaultChangePasswordStatement] := by
  have hrun : updateUser exec true ⟨u, some ⟨p, []⟩⟩ =
      execLoop exec u p [defaultChangePasswordStatement] := by
    simp [updateUser, hu, hp]
  rw [hrun]
  cases hres : exec (queryHelper u p defaultChangePasswordStatement) <;>
    simp [execLoop, hres]

/-- Counterexample to claim C7 as stated: a new password that is itself a
placeholder token is substituted again, so the executed text is not the
default template with the literal values in place.  With username
`\x7b\x7bpassword\x7d\x7d` and new password `\x7b\x7busername\x7d\x7d`, the
claim demands the text `ALTER USER "<u>" IDENTIFIED BY "<p>"`, but the code
executes a different statement (under either iteration order of the Go
substitution map). -/
theorem claim_C7_counterexample :
    (updateUser execAllOk true
        ⟨"\x7b\x7bpassword\x7d\x7d", some ⟨"\x7b\x7busername\x7d\x7d", []⟩⟩).1 =
      ["ALTER USER \"\x7b\x7bpassword\x7d\x7d\" IDENTIFIED BY \"\x7b\x7bpassword\x7d\x7d\""] ∧
    ("ALTER USER \"\x7b\x7bpassword\x7d\x7d\" IDENTIFIED BY \"\x7b\x7bpassword\x7d\x7d\""
        : String) ≠
      "ALTER USER \"\x7b\x7bpassword\x7d\x7d\" IDENTIFIED BY \"\x7b\x7busername\x7d\x7d\"" :=
  ⟨rfl, by decide⟩

/-- Claim C7 amended: on an initialized instance, for every request with
non-empty username and non-empty new password, neither containing an opening
brace (so neither contains a placeholder token), and an empty statement list,
exactly one SQL statement is executed and its text is
`ALTER USER "<username>" IDENTIFIED BY "<new password>"`. -/
theorem claim_C7_amended (exec : String → Option String) (u p : String)
    (hu : u ≠ "") (hp : p ≠ "") (_hbu : '{' ∉ u.data) (hbp : '{' ∉ p.data) :
    (updateUser exec true ⟨u, some ⟨p, []⟩⟩).1 =
      ["ALTER USER \"" ++ u ++ "\" IDENTIFIED BY \"" ++ p ++ "\""] := by
  rw [updateUser_default_stmt exec u p hu hp, queryHelper_default u p hbp]

/-- Witness for the amended C7 at the spec's end-to-end example. -/
theorem claim_C7_witness :
    (updateUser execAllOk true ⟨"testuser", some ⟨"newpw", []⟩⟩).1 =
      ["ALTER USER \"testuser\" IDENTIFIED BY \"newpw\""] := by
  have h := claim_C7_amended execAllOk "testuser" "newpw" (by decide) (by decide)
    (by decide) (by decide)
  simpa using h

/-- Counterexample to claim C5 as stated: with both credentials empty, the
claim says the masking map has no keys (it contains exactly the non-empty
credential values); the code's map literal nevertheless binds the empty
string to "[username]". -/
theorem claim_C5_counterexample :
    secretValuesToMask ⟨"DATABASE=testdb", "", "", 0, 0⟩ "" = some "[username]" ∧
    (⟨"DATABASE=testdb", "", "", 0, 0⟩ : Config).username = "" ∧
    (⟨"DATABASE=testdb", "", "", 0, 0⟩ : Config).password = "" :=
  ⟨rfl, rfl, rfl⟩

/-- Claim C5 amended: the masking map is the two-entry insertion map written
Password-entry first: the current Username (empty or not) is always a key
mapped to "[username]"; the current Password is a key mapped to "[password]"
whenever it differs from the Username (otherwise the Username entry shadows
it); every key is the current Username or the current Password; and after a
subsequent successful Initialize the map is computed from the newly applied
configuration only, so values from a prior Initialize do not linger. -/
theorem claim_C5_amended (c : Config) :
    secretValuesToMask c c.username = some "[username]" ∧
    (c.password ≠ c.username → secretValuesToMask c c.password = some "[password]") ∧
    (∀ k, (secretValuesToMask c k).isSome = true → k = c.username ∨ k = c.password) ∧
    (∀ dec openRes ping verify st cfg, dec = Except.ok cfg →
      (initDB dec openRes ping verify st).2 = Except.ok () →
      secretValuesToMask (initDB dec openRes ping verify st).1.config =
        secretValuesToMask cfg) := by
  refine ⟨?_, ?_, ?_, ?_⟩
  · simp [secretValuesToMask, mapInsert]
  · intro hne
    simp [secretValuesToMask, mapInsert, hne]
  · intro k hk
    by_cases h1 : k = c.username
    · exact Or.inl h1
    · by_cases h2 : k = c.password
      · exact Or.inr h2
      · exact absurd hk (by simp [secretValuesToMask, mapInsert, mapEmpty, h1, h2])
  · intro dec openRes ping verify st cfg hdec hok
    subst hdec
    have hcfg : (initDB (Except.ok cfg) openRes ping verify st).1.config = cfg := by
      by_cases hurl : cfg.connectionURL = ""
      · exact absurd hok (by simp [initDB, hurl])
      · cases hop : openRes (buildConnectionString cfg) with
        | error m => exact absurd hok (by simp [initDB, hurl, hop])
        | ok hdl =>
          cases verify with
          | false => simp [initDB, hurl, hop]
          | true =>
            cases hping : ping hdl with
            | none => simp [initDB, hurl, hop, hping]
            | some m => exact absurd hok (by simp [initDB, hurl, hop, hping])
    rw [hcfg]

/-- Witness for the amended C5 with distinct non-empty credentials, and a
concrete successful re-Initialize whose masking map is that of the new
configuration. -/
theorem claim_C5_witness :
    secretValuesToMask ⟨"DSN", "u", "p", 0, 0⟩ "u" = some "[username]" ∧
    secretValuesToMask ⟨"DSN", "u", "p", 0, 0⟩ "p" = some "[password]" ∧
    secretValuesToMask (initDB (Except.ok ⟨"DSN", "u", "p", 0, 0⟩) (fun _ => Except.ok 1)
        (fun _ => none) true ⟨⟨"OLD", "ou", "op", 0, 0⟩, some 3⟩).1.config =
      secretValuesToMask ⟨"DSN", "u", "p", 0, 0⟩ := by
  have h := claim_C5_amended ⟨"DSN", "u", "p", 0, 0⟩
  refine ⟨h.1, h.2.1 (by decide), ?_⟩
  exact h.2.2.2 (Except.ok ⟨"DSN", "u", "p", 0, 0⟩) (fun _ => Except.ok 1) (fun _ => none)
    true ⟨⟨"OLD", "ou", "op", 0, 0⟩, some 3⟩ ⟨"DSN", "u", "p", 0, 0⟩ rfl rfl

end VaultDB2
